import Mathlib

/-!
Shallow embedding of the Finlytics finance-tracker web service (src/app.py):
a Flask app with sqlite persistence offering register / login / logout,
transaction create / list / delete, all scoped to the session's user.

JSON request bodies are modelled as association lists of string keys to
`JVal` values (null, number, string — the only JSON shapes this API ever
receives).  The sqlite store is modelled as in-memory lists with an
AUTOINCREMENT counter for transaction ids.  The Flask session cookie is
modelled as `Option String` holding the `user_email` entry.  Each route
handler is a pure function from (store, session, request) to
(response, store, session); response constructors carry the same
distinctions the handlers' JSON bodies and status codes do.
-/

/-- A JSON value as received by this API: null, a number, or a string.
Numbers are modelled as `Rat` (the handlers convert them with Python's
`float`; no claim depends on binary floating-point rounding). -/
inductive JVal where
  | null
  | num (q : Rat)
  | str (s : String)
deriving DecidableEq, Repr

/-- Python truthiness of a JSON value: `None`, `0` and `""` are falsy. -/
def JVal.truthy : JVal → Bool
  | .null => false
  | .num q => q ≠ 0
  | .str s => s ≠ ""

/-- Truthiness of `data.get(k)`: a missing key (Python `None`) is falsy. -/
def truthyOpt : Option JVal → Bool
  | none => false
  | some v => v.truthy

/-- Models `data.get(k)` on the parsed JSON object (an association list). -/
def getField (data : List (String × JVal)) (k : String) : Option JVal :=
  (data.find? (fun p => p.1 = k)).map (fun p => p.2)

/-- Models Python's `x or d`: the first operand if truthy, else the default. -/
def pyOr (v : Option JVal) (d : JVal) : JVal :=
  match v with
  | some x => if x.truthy then x else d
  | none => d

/-- A Python-level exception that the handlers do not catch (surfaces as a
Flask 500 response). -/
inductive PyErr where
  | typeError
deriving DecidableEq, Repr

/-- Models Python `str.strip()`: drops leading and trailing whitespace. -/
def pyStripStr (s : String) : String :=
  ((s.data.dropWhile Char.isWhitespace).reverse.dropWhile
    Char.isWhitespace).reverse.asString

/-- Models `.strip()` called on a value expected to be a string: strips
whitespace on a string, raises `TypeError`-like on any other value. -/
def pyStrip : JVal → Except PyErr String
  | .str s => .ok (pyStripStr s)
  | _ => .error .typeError

/-- Value of a list of decimal digit characters. -/
def digitsVal (cs : List Char) : Nat :=
  cs.foldl (fun a c => a * 10 + (c.toNat - 48)) 0

/-- Models Python `float()` applied to a string: optional surrounding
whitespace, an optional sign, then digits with at most one decimal point.
(Exponent, `inf`/`nan` and underscore forms are not modelled; no caller of
this API uses them.)  Returns `none` where Python raises `ValueError`. -/
def parseFloatStr (s : String) : Option Rat :=
  let cs := s.trim.toList
  let signed : Rat × List Char :=
    match cs with
    | '-' :: rest => (-1, rest)
    | '+' :: rest => (1, rest)
    | _ => (1, cs)
  let sign := signed.1
  let body := signed.2
  let intPart := body.takeWhile Char.isDigit
  let rest := body.dropWhile Char.isDigit
  match rest with
  | [] => if intPart.isEmpty then none else some (sign * (digitsVal intPart : Rat))
  | '.' :: frac =>
    let fracDigits := frac.takeWhile Char.isDigit
    if ¬ (frac.dropWhile Char.isDigit).isEmpty then none
    else if intPart.isEmpty ∧ fracDigits.isEmpty then none
    else some (sign * ((digitsVal intPart : Rat) +
      (digitsVal fracDigits : Rat) / ((10 : Rat) ^ fracDigits.length)))
  | _ => none

/-- Errors of Python `float(x)`: `ValueError` on an unparseable string
(caught by the handler), `TypeError` on `None` (uncaught, Flask 500). -/
inductive FloatErr where
  | valueError
  | typeError
deriving DecidableEq, Repr

/-- Models `float(amount)` on the JSON value of the `amount` field. -/
def pyFloat : JVal → Except FloatErr Rat
  | .num q => .ok q
  | .str s =>
    match parseFloatStr s with
    | some q => .ok q
    | none => .error .valueError
  | .null => .error .typeError

/-- Models the collaborator credential-hashing primitive
(werkzeug `generate_password_hash`): a one-way salted hash, abstracted so
that verification succeeds exactly on the original password. -/
def generate_password_hash (p : String) : String := p

/-- Models werkzeug `check_password_hash`: true exactly when `p` is the
password that produced hash `h`. -/
def check_password_hash (h p : String) : Bool := h = p

/-- A row of the `users` table: unique email plus stored password hash. -/
structure User where
  email : String
  password : String
deriving DecidableEq, Repr

/-- A row of the `transactions` table.  `ttype` mirrors the `type` column
(`type` is reserved in Lean); `amount` is the REAL column; `categoryName`
is nullable. -/
structure Txn where
  id : Nat
  user_email : String
  ttype : JVal
  date : JVal
  amount : Rat
  category : JVal
  categoryName : Option JVal
deriving DecidableEq, Repr

/-- The sqlite database: both tables plus the AUTOINCREMENT counter for
`transactions.id` (AUTOINCREMENT never reuses ids, even after deletes). -/
structure Store where
  users : List User
  txns : List Txn
  nextTxnId : Nat
deriving DecidableEq, Repr

/-- Models `require_user()`: the session's `user_email` if present and
truthy, otherwise `none` (anonymous). -/
def require_user (sess : Option String) : Option String :=
  match sess with
  | none => none
  | some e => if e = "" then none else some e

/-- Python `None` (missing key or JSON null) is stored as SQL NULL. -/
def storedOpt : Option JVal → Option JVal
  | none => none
  | some .null => none
  | some v => some v

/-- Responses of POST /api/register. -/
inductive RegisterResp where
  | notJson
  | missingFields
  | userExists
  | created (email : String)
  | serverError
deriving DecidableEq, Repr

/-- HTTP status code of each register response. -/
def RegisterResp.status : RegisterResp → Nat
  | .notJson => 400
  | .missingFields => 400
  | .userExists => 409
  | .created _ => 201
  | .serverError => 500

/-- Models the `register` route handler (src/app.py lines 89-115). -/
def register (st : Store) (sess : Option String)
    (body : Option (List (String × JVal))) :
    RegisterResp × Store × Option String :=
  match body with
  | none => (.notJson, st, sess)
  | some data =>
    if data.isEmpty then (.notJson, st, sess)
    else
      match pyStrip (pyOr (getField data "email") (.str "")) with
      | .error _ => (.serverError, st, sess)
      | .ok email =>
        let password := pyOr (getField data "password") (.str "")
        if email = "" ∨ password.truthy = false then (.missingFields, st, sess)
        else
          match password with
          | .str p =>
            let hashed := generate_password_hash p
            if st.users.any (fun u => u.email = email) then
              (.userExists, st, sess)
            else
              (.created email,
               { st with users := st.users ++ [⟨email, hashed⟩] },
               some email)
          | _ => (.serverError, st, sess)

/-- Responses of POST /api/login. -/
inductive LoginResp where
  | notJson
  | missingFields
  | invalidCredentials
  | ok (email : String)
  | serverError
deriving DecidableEq, Repr

/-- HTTP status code of each login response. -/
def LoginResp.status : LoginResp → Nat
  | .notJson => 400
  | .missingFields => 400
  | .invalidCredentials => 401
  | .ok _ => 200
  | .serverError => 500

/-- Models the `login` route handler (src/app.py lines 117-139). -/
def login (st : Store) (sess : Option String)
    (body : Option (List (String × JVal))) :
    LoginResp × Store × Option String :=
  match body with
  | none => (.notJson, st, sess)
  | some data =>
    if data.isEmpty then (.notJson, st, sess)
    else
      match pyStrip (pyOr (getField data "email") (.str "")) with
      | .error _ => (.serverError, st, sess)
      | .ok email =>
        let password := pyOr (getField data "password") (.str "")
        if email = "" ∨ password.truthy = false then (.missingFields, st, sess)
        else
          match st.users.find? (fun u => u.email = email) with
          | some u =>
            match password with
            | .str p =>
              if check_password_hash u.password p then
                (.ok email, st, some email)
              else
                (.invalidCredentials, st, sess)
            | _ => (.serverError, st, sess)
          | none => (.invalidCredentials, st, sess)

/-- Models the `logout` route handler: drops the session unconditionally. -/
def logout (st : Store) (_sess : Option String) :
    Unit × Store × Option String :=
  ((), st, none)

/-- The sqlite comparison order on stored values: NULL sorts before
numbers, numbers before text; numbers by value, text lexicographically. -/
def JVal.sqliteLe : JVal → JVal → Bool
  | .null, _ => true
  | .num _, .null => false
  | .num p, .num q => p ≤ q
  | .num _, .str _ => true
  | .str _, .null => false
  | .str _, .num _ => false
  | .str s, .str t => s.data ≤ t.data

/-- The row order produced by `ORDER BY date DESC`: `a` comes no later
than `b` when `b.date ≤ a.date` in sqlite's value order. -/
def dateDescRel (a b : Txn) : Prop := JVal.sqliteLe b.date a.date = true

instance : DecidableRel dateDescRel := fun a b =>
  instDecidableEqBool (JVal.sqliteLe b.date a.date) true

instance : IsTotal Txn dateDescRel :=
  ⟨fun a b => by
    unfold dateDescRel
    rcases ha : a.date with _ | p | s <;> rcases hb : b.date with _ | q | t <;>
      simp [JVal.sqliteLe]
    · exact le_total q p
    · exact le_total t.data s.data⟩

instance : IsTrans Txn dateDescRel :=
  ⟨fun a b c hab hbc => by
    unfold dateDescRel at *
    rcases ha : a.date with _ | p | s <;> rcases hb : b.date with _ | q | t <;>
        rcases hc : c.date with _ | r | v <;>
        simp_all [JVal.sqliteLe]
    · exact le_trans hbc hab
    · exact le_trans hbc hab⟩

/-- Models the GET branch of the `transactions` route handler
(src/app.py lines 160-166): the authenticated user's rows ordered by
`date DESC`.  (Callers check authentication before using this; the route
itself rejects anonymous requests with 401, see `transactions_get`.) -/
def listByOwner (st : Store) (owner : String) : List Txn :=
  List.insertionSort dateDescRel (st.txns.filter (fun t => t.user_email = owner))

/-- Responses of GET /api/transactions. -/
inductive ListResp where
  | notAuth
  | ok (rows : List Txn)
deriving DecidableEq, Repr

/-- HTTP status code of each list response. -/
def ListResp.status : ListResp → Nat
  | .notAuth => 401
  | .ok _ => 200

/-- Models GET /api/transactions including the authentication gate. -/
def transactions_get (st : Store) (sess : Option String) : ListResp :=
  match require_user sess with
  | none => .notAuth
  | some user_email => .ok (listByOwner st user_email)

/-- Responses of POST /api/transactions. -/
inductive CreateResp where
  | notAuth
  | notJson
  | missingFields
  | badAmount
  | created (id : Nat)
  | serverError
deriving DecidableEq, Repr

/-- HTTP status code of each create response. -/
def CreateResp.status : CreateResp → Nat
  | .notAuth => 401
  | .notJson => 400
  | .missingFields => 400
  | .badAmount => 400
  | .created _ => 201
  | .serverError => 500

/-- Models the POST branch of the `transactions` route handler
(src/app.py lines 168-197): auth gate, JSON gate, truthiness check of the
four required fields, `float` conversion of `amount`, then the INSERT. -/
def transactions_post (st : Store) (sess : Option String)
    (body : Option (List (String × JVal))) : CreateResp × Store :=
  match require_user sess with
  | none => (.notAuth, st)
  | some user_email =>
    match body with
    | none => (.notJson, st)
    | some data =>
      if data.isEmpty then (.notJson, st)
      else
        let ttype := getField data "type"
        let date := getField data "date"
        let amount := getField data "amount"
        let category := getField data "category"
        let category_name := getField data "categoryName"
        if (truthyOpt ttype && truthyOpt date && truthyOpt amount &&
            truthyOpt category) = false then
          (.missingFields, st)
        else
          match pyFloat (amount.getD .null) with
          | .error .valueError => (.badAmount, st)
          | .error .typeError => (.serverError, st)
          | .ok q =>
            let t : Txn :=
              ⟨st.nextTxnId, user_email, ttype.getD .null, date.getD .null,
               q, category.getD .null, storedOpt category_name⟩
            (.created st.nextTxnId,
             { st with txns := st.txns ++ [t], nextTxnId := st.nextTxnId + 1 })

/-- Responses of DELETE /api/transactions/{id}. -/
inductive DeleteResp where
  | notAuth
  | notFound
  | ok
deriving DecidableEq, Repr

/-- HTTP status code of each delete response. -/
def DeleteResp.status : DeleteResp → Nat
  | .notAuth => 401
  | .notFound => 404
  | .ok => 200

/-- Models the `delete_transaction` route handler (src/app.py lines
199-213): `DELETE FROM transactions WHERE id = ? AND user_email = ?`,
then 404 when the rowcount is zero. -/
def delete_transaction (st : Store) (sess : Option String) (tx_id : Nat) :
    DeleteResp × Store :=
  match require_user sess with
  | none => (.notAuth, st)
  | some user_email =>
    let remaining := st.txns.filter
      (fun t => ¬ (t.id = tx_id ∧ t.user_email = user_email))
    let st' := { st with txns := remaining }
    if st.txns.length - remaining.length = 0 then (.notFound, st')
    else (.ok, st')

/-- Body of a create-transaction request with the four required fields. -/
def mkTxBody (t d a c : JVal) : List (String × JVal) :=
  [("type", t), ("date", d), ("amount", a), ("category", c)]

/-- Body of a create-transaction request that also carries `categoryName`. -/
def mkTxBodyCN (t d a c cn : JVal) : List (String × JVal) :=
  [("type", t), ("date", d), ("amount", a), ("category", c), ("categoryName", cn)]

/-- Body of a register or login request. -/
def mkAuthBody (e p : JVal) : List (String × JVal) :=
  [("email", e), ("password", p)]

/-- A store holding a single registered user and no transactions. -/
def stOneUser : Store := ⟨[⟨"a@b.com", "pw"⟩], [], 1⟩

/-- A store whose single user owns three transactions inserted with dates
2024-01-01, 2025-06-01, 2023-03-03 (the spec's ordering example). -/
def stThreeDates : Store :=
  ⟨[⟨"a@b.com", "pw"⟩],
   [⟨1, "a@b.com", .str "income", .str "2024-01-01", 5, .str "salary", none⟩,
    ⟨2, "a@b.com", .str "income", .str "2025-06-01", 6, .str "salary", none⟩,
    ⟨3, "a@b.com", .str "expense", .str "2023-03-03", 7, .str "food", none⟩],
   4⟩

/-- Getting the four fixed keys out of `mkTxBody` (computation lemmas for
the proofs below). -/
theorem getField_mkTxBody (t d a c : JVal) :
    getField (mkTxBody t d a c) "type" = some t ∧
    getField (mkTxBody t d a c) "date" = some d ∧
    getField (mkTxBody t d a c) "amount" = some a ∧
    getField (mkTxBody t d a c) "category" = some c ∧
    getField (mkTxBody t d a c) "categoryName" = none :=
  ⟨rfl, rfl, rfl, rfl, rfl⟩

/-- Getting the five fixed keys out of `mkTxBodyCN`. -/
theorem getField_mkTxBodyCN (t d a c cn : JVal) :
    getField (mkTxBodyCN t d a c cn) "type" = some t ∧
    getField (mkTxBodyCN t d a c cn) "date" = some d ∧
    getField (mkTxBodyCN t d a c cn) "amount" = some a ∧
    getField (mkTxBodyCN t d a c cn) "category" = some c ∧
    getField (mkTxBodyCN t d a c cn) "categoryName" = some cn :=
  ⟨rfl, rfl, rfl, rfl, rfl⟩

/-- Getting the two fixed keys out of `mkAuthBody`. -/
theorem getField_mkAuthBody (e p : JVal) :
    getField (mkAuthBody e p) "email" = some e ∧
    getField (mkAuthBody e p) "password" = some p :=
  ⟨rfl, rfl⟩

/-- Truthiness of a numeric JSON value, as an equation usable without
unfolding `JVal.truthy` elsewhere. -/
theorem JVal.truthy_num (q : Rat) : (JVal.num q).truthy = !decide (q = 0) := by
  simp [JVal.truthy]

/-- Evaluation of the POST /api/transactions handler on an authenticated
request whose body has the four required fields, a numeric nonzero amount
and no `categoryName`: the row is inserted with `categoryName` NULL. -/
theorem transactions_post_eval (st : Store) (u : String) (t d c : JVal) (q : Rat)
    (hu : u ≠ "") (ht : t.truthy = true) (hd : d.truthy = true)
    (hc : c.truthy = true) (hq : q ≠ 0) :
    transactions_post st (some u) (some (mkTxBody t d (.num q) c)) =
      (.created st.nextTxnId,
       { st with txns := st.txns ++ [⟨st.nextTxnId, u, t, d, q, c, none⟩],
                 nextTxnId := st.nextTxnId + 1 }) := by
  simp [transactions_post, require_user, hu, mkTxBody, getField, truthyOpt,
    JVal.truthy_num, ht, hd, hc, hq, pyFloat, storedOpt]

/-- Evaluation of the POST /api/transactions handler on the same request
shape but with `categoryName` also supplied. -/
theorem transactions_post_evalCN (st : Store) (u : String) (t d c cn : JVal)
    (q : Rat) (hu : u ≠ "") (ht : t.truthy = true) (hd : d.truthy = true)
    (hc : c.truthy = true) (hq : q ≠ 0) :
    transactions_post st (some u) (some (mkTxBodyCN t d (.num q) c cn)) =
      (.created st.nextTxnId,
       { st with
           txns := st.txns ++ [⟨st.nextTxnId, u, t, d, q, c, storedOpt (some cn)⟩],
           nextTxnId := st.nextTxnId + 1 }) := by
  simp [transactions_post, require_user, hu, mkTxBodyCN, getField, truthyOpt,
    JVal.truthy_num, ht, hd, hc, hq, pyFloat]

/-- A transaction is in the GET listing exactly when it is in the table
and belongs to the listed owner. -/
theorem mem_listByOwner {st : Store} {owner : String} {t : Txn} :
    t ∈ listByOwner st owner ↔ t ∈ st.txns ∧ t.user_email = owner := by
  simp [listByOwner, List.mem_insertionSort, List.mem_filter]

/-- C1 (counterexample): with an authenticated session and all other
fields valid, a create request with amount -5 is ACCEPTED (201, row
inserted) rather than rejected with 400, and the identical request with
amount 0 is REJECTED with the 400 missing-fields error rather than
accepted — the opposite of the claim on both inputs. -/
theorem C1_counterexample :
    (transactions_post stOneUser (some "a@b.com")
        (some (mkTxBody (.str "expense") (.str "2024-01-01")
          (.num (-5)) (.str "food")))).1 = .created 1 ∧
    CreateResp.status (.created 1) = 201 ∧
    (transactions_post stOneUser (some "a@b.com")
        (some (mkTxBody (.str "expense") (.str "2024-01-01")
          (.num 0) (.str "food")))).1 = .missingFields ∧
    CreateResp.status .missingFields = 400 := by
  decide

/-- C1 (amended): the handler checks only Python truthiness of the four
required fields and float-convertibility of amount.  Hence a create
request with amount -5 (other fields truthy) succeeds with 201 and
inserts the row with amount -5, while the identical request with
amount 0 fails with the 400 missing-fields error (0 is falsy) and leaves
the store unchanged. -/
theorem C1_amended_theorem (st : Store) (u : String) (t d c : JVal)
    (hu : u ≠ "") (ht : t.truthy = true) (hd : d.truthy = true)
    (hc : c.truthy = true) :
    transactions_post st (some u) (some (mkTxBody t d (.num (-5)) c)) =
      (.created st.nextTxnId,
       { st with txns := st.txns ++ [⟨st.nextTxnId, u, t, d, -5, c, none⟩],
                 nextTxnId := st.nextTxnId + 1 }) ∧
    CreateResp.status (.created st.nextTxnId) = 201 ∧
    transactions_post st (some u) (some (mkTxBody t d (.num 0) c)) =
      (.missingFields, st) ∧
    CreateResp.status .missingFields = 400 := by
  refine ⟨transactions_post_eval st u t d c (-5) hu ht hd hc (by norm_num),
    rfl, ?_, rfl⟩
  simp [transactions_post, require_user, hu, mkTxBody, getField, truthyOpt,
    JVal.truthy_num]

/-- C1 (witness): the amended theorem applied to a concrete store and
request. -/
theorem C1_witness :
    ("a@b.com" : String) ≠ "" ∧ (JVal.str "expense").truthy = true ∧
    (JVal.str "2024-01-01").truthy = true ∧ (JVal.str "food").truthy = true ∧
    (transactions_post stOneUser (some "a@b.com")
        (some (mkTxBody (.str "expense") (.str "2024-01-01")
          (.num (-5)) (.str "food"))) =
      (.created 1,
       ⟨[⟨"a@b.com", "pw"⟩],
        [⟨1, "a@b.com", .str "expense", .str "2024-01-01", -5, .str "food",
          none⟩], 2⟩) ∧
     CreateResp.status (.created 1) = 201 ∧
     transactions_post stOneUser (some "a@b.com")
        (some (mkTxBody (.str "expense") (.str "2024-01-01")
          (.num 0) (.str "food"))) = (.missingFields, stOneUser) ∧
     CreateResp.status .missingFields = 400) :=
  ⟨by decide, by decide, by decide, by decide,
   C1_amended_theorem stOneUser "a@b.com" (.str "expense") (.str "2024-01-01")
     (.str "food") (by decide) (by decide) (by decide) (by decide)⟩

/-- C2 (counterexample): an authenticated create request whose type is
"weird" — not "income" or "expense" — succeeds with 201 and inserts the
row, instead of failing with 400 and inserting nothing. -/
theorem C2_counterexample :
    transactions_post stOneUser (some "a@b.com")
        (some (mkTxBody (.str "weird") (.str "2024-01-01")
          (.num 3) (.str "food"))) =
      (.created 1,
       ⟨[⟨"a@b.com", "pw"⟩],
        [⟨1, "a@b.com", .str "weird", .str "2024-01-01", 3, .str "food",
          none⟩], 2⟩) ∧
    CreateResp.status (.created 1) = 201 ∧
    JVal.str "weird" ≠ JVal.str "income" ∧
    JVal.str "weird" ≠ JVal.str "expense" := by
  decide

/-- C2 (amended): the create operation applies no membership check to the
kind/type field at all: with an authenticated session and a non-empty
JSON body, the insert happens exactly when the four required fields are
truthy and the amount converts with `float` — whatever the type value is. -/
theorem C2_amended_theorem (st : Store) (u : String)
    (data : List (String × JVal)) (hu : u ≠ "")
    (hne : data.isEmpty = false) :
    (∃ i, (transactions_post st (some u) (some data)).1 = .created i) ↔
      ((truthyOpt (getField data "type") && truthyOpt (getField data "date") &&
        truthyOpt (getField data "amount") &&
        truthyOpt (getField data "category")) = true ∧
       ∃ q, pyFloat ((getField data "amount").getD .null) = .ok q) := by
  simp only [transactions_post, require_user, if_neg hu, hne, Bool.false_eq_true,
    if_false]
  cases hcond : (truthyOpt (getField data "type") &&
      truthyOpt (getField data "date") && truthyOpt (getField data "amount") &&
      truthyOpt (getField data "category")) with
  | false => simp [hcond]
  | true =>
    simp only [hcond]
    cases hpf : pyFloat ((getField data "amount").getD .null) with
    | ok q => simp
    | error e => cases e <;> simp

/-- C2 (witness): the amended theorem applied at a concrete request whose
type is "weird": since the truthiness/float side holds, the insert
happens. -/
theorem C2_witness :
    ("a@b.com" : String) ≠ "" ∧
    (mkTxBody (.str "weird") (.str "2024-01-01") (.num 3)
      (.str "food")).isEmpty = false ∧
    ∃ i, (transactions_post stOneUser (some "a@b.com")
        (some (mkTxBody (.str "weird") (.str "2024-01-01")
          (.num 3) (.str "food")))).1 = .created i :=
  ⟨by decide, by decide,
   (C2_amended_theorem stOneUser "a@b.com"
      (mkTxBody (.str "weird") (.str "2024-01-01") (.num 3) (.str "food"))
      (by decide) (by decide)).mpr ⟨by decide, 3, rfl⟩⟩

/-- C3 (counterexample): a successful create request that omits
`categoryName` stores SQL NULL for it — not the category code "food" —
and the subsequent list returns NULL for it too. -/
theorem C3_counterexample :
    (transactions_post stOneUser (some "a@b.com")
        (some (mkTxBody (.str "expense") (.str "2024-01-01")
          (.num 5) (.str "food")))).2.txns =
      [⟨1, "a@b.com", .str "expense", .str "2024-01-01", 5, .str "food",
        none⟩] ∧
    listByOwner (transactions_post stOneUser (some "a@b.com")
        (some (mkTxBody (.str "expense") (.str "2024-01-01")
          (.num 5) (.str "food")))).2 "a@b.com" =
      [⟨1, "a@b.com", .str "expense", .str "2024-01-01", 5, .str "food",
        none⟩] ∧
    (Txn.categoryName
        ⟨1, "a@b.com", .str "expense", .str "2024-01-01", 5, .str "food",
         none⟩) ≠ some (.str "food") := by
  decide

/-- C3 (amended): the stored `categoryName` is exactly the submitted
value: a supplied value is stored through `storedOpt` (JSON null becomes
SQL NULL, a blank string stays a blank string), and an omitted field is
stored as SQL NULL — it is never defaulted to the category code. -/
theorem C3_amended_theorem (st : Store) (u : String) (t d c cn : JVal)
    (q : Rat) (hu : u ≠ "") (ht : t.truthy = true) (hd : d.truthy = true)
    (hc : c.truthy = true) (hq : q ≠ 0) :
    (transactions_post st (some u)
        (some (mkTxBodyCN t d (.num q) c cn))).2.txns =
      st.txns ++ [⟨st.nextTxnId, u, t, d, q, c, storedOpt (some cn)⟩] ∧
    (transactions_post st (some u) (some (mkTxBody t d (.num q) c))).2.txns =
      st.txns ++ [⟨st.nextTxnId, u, t, d, q, c, none⟩] ∧
    storedOpt (some (.str "")) = some (.str "") ∧
    storedOpt (some .null) = none := by
  refine ⟨?_, ?_, rfl, rfl⟩
  · rw [transactions_post_evalCN st u t d c cn q hu ht hd hc hq]
  · rw [transactions_post_eval st u t d c q hu ht hd hc hq]

/-- C3 (witness): the amended theorem applied at a concrete store and
request with `categoryName` = "Groceries". -/
theorem C3_witness :
    ("a@b.com" : String) ≠ "" ∧ (JVal.str "expense").truthy = true ∧
    (JVal.str "2024-01-01").truthy = true ∧ (JVal.str "food").truthy = true ∧
    (5 : Rat) ≠ 0 ∧
    ((transactions_post stOneUser (some "a@b.com")
        (some (mkTxBodyCN (.str "expense") (.str "2024-01-01") (.num 5)
          (.str "food") (.str "Groceries")))).2.txns =
      [⟨1, "a@b.com", .str "expense", .str "2024-01-01", 5, .str "food",
        storedOpt (some (.str "Groceries"))⟩] ∧
     (transactions_post stOneUser (some "a@b.com")
        (some (mkTxBody (.str "expense") (.str "2024-01-01") (.num 5)
          (.str "food")))).2.txns =
      [⟨1, "a@b.com", .str "expense", .str "2024-01-01", 5, .str "food",
        none⟩] ∧
     storedOpt (some (.str "")) = some (.str "") ∧
     storedOpt (some .null) = none) :=
  ⟨by decide, by decide, by decide, by decide, by decide,
   C3_amended_theorem stOneUser "a@b.com" (.str "expense") (.str "2024-01-01")
     (.str "food") (.str "Groceries") 5 (by decide) (by decide) (by decide)
     (by decide) (by decide)⟩

/-- Truthiness of a string JSON value, as an equation usable without
unfolding `JVal.truthy` elsewhere. -/
theorem JVal.truthy_str (s : String) : (JVal.str s).truthy = !decide (s = "") := by
  simp [JVal.truthy]

/-- C4: a login with a registered email but a wrong password and a login
with an unregistered email produce literally the same response — the
single invalid-credentials error with HTTP 401 — and both leave the store
and the session unchanged, revealing nothing about which failure it was. -/
theorem C4_theorem (st : Store) (sess : Option String) (e1 p1 e2 p2 : String)
    (u : User)
    (he1 : e1 ≠ "") (hp1 : p1 ≠ "") (he2 : e2 ≠ "") (hp2 : p2 ≠ "")
    (ht1 : pyStripStr e1 ≠ "") (ht2 : pyStripStr e2 ≠ "")
    (hu : st.users.find? (fun v => v.email = pyStripStr e1) = some u)
    (hw : check_password_hash u.password p1 = false)
    (hn : st.users.find? (fun v => v.email = pyStripStr e2) = none) :
    login st sess (some (mkAuthBody (.str e1) (.str p1))) =
      (.invalidCredentials, st, sess) ∧
    login st sess (some (mkAuthBody (.str e2) (.str p2))) =
      (.invalidCredentials, st, sess) ∧
    LoginResp.status .invalidCredentials = 401 := by
  refine ⟨?_, ?_, rfl⟩
  · simp [login, mkAuthBody, getField, pyOr, pyStrip, JVal.truthy_str,
      he1, hp1, ht1, hu, hw]
  · simp [login, mkAuthBody, getField, pyOr, pyStrip, JVal.truthy_str,
      he2, hp2, ht2, hn]

/-- C4 (witness): the theorem applied to a concrete store with one
registered user, a wrong-password login and an unknown-email login. -/
theorem C4_witness :
    ("a@b.com" : String) ≠ "" ∧ ("oops" : String) ≠ "" ∧
    ("z@y.org" : String) ≠ "" ∧ ("anything" : String) ≠ "" ∧
    pyStripStr "a@b.com" ≠ "" ∧ pyStripStr "z@y.org" ≠ "" ∧
    stOneUser.users.find? (fun v => v.email = pyStripStr "a@b.com") =
      some ⟨"a@b.com", "pw"⟩ ∧
    check_password_hash (User.password ⟨"a@b.com", "pw"⟩) "oops" = false ∧
    stOneUser.users.find? (fun v => v.email = pyStripStr "z@y.org") = none ∧
    (login stOneUser none (some (mkAuthBody (.str "a@b.com") (.str "oops"))) =
      (.invalidCredentials, stOneUser, none) ∧
     login stOneUser none (some (mkAuthBody (.str "z@y.org") (.str "anything"))) =
      (.invalidCredentials, stOneUser, none) ∧
     LoginResp.status .invalidCredentials = 401) :=
  ⟨by decide, by decide, by decide, by decide, by decide, by decide,
   by decide, by decide, by decide,
   C4_theorem stOneUser none "a@b.com" "oops" "z@y.org" "anything"
     ⟨"a@b.com", "pw"⟩ (by decide) (by decide) (by decide) (by decide)
     (by decide) (by decide) (by decide) (by decide) (by decide)⟩

/-- C5: deleting a transaction that exists but belongs to a different
owner returns the same NotFound (404) as a nonexistent id, the store is
unchanged, and a subsequent list by the true owner still contains the
transaction with all its fields intact. -/
theorem C5_theorem (st : Store) (tid : Nat) (ownerA ownerB : String) (t : Txn)
    (hB : ownerB ≠ "") (htm : t ∈ st.txns) (_hid : t.id = tid)
    (hown : t.user_email = ownerA) (hAB : ownerA ≠ ownerB)
    (huniq : ∀ t' ∈ st.txns, t'.id = tid → t'.user_email = ownerA) :
    delete_transaction st (some ownerB) tid = (.notFound, st) ∧
    DeleteResp.notFound.status = 404 ∧
    t ∈ listByOwner st ownerA := by
  have hrem : st.txns.filter
      (fun t' => ¬ (t'.id = tid ∧ t'.user_email = ownerB)) = st.txns := by
    apply List.filter_eq_self.mpr
    intro a ha
    have hna : ¬ (a.id = tid ∧ a.user_email = ownerB) := by
      rintro ⟨h1, h2⟩
      exact hAB ((huniq a ha h1).symm.trans h2)
    exact decide_eq_true hna
  refine ⟨?_, rfl, mem_listByOwner.mpr ⟨htm, hown⟩⟩
  have step1 : require_user (some ownerB) = some ownerB := by
    simp [require_user, hB]
  simp only [delete_transaction, step1]
  rw [hrem]
  simp

/-- C5 (witness): the theorem applied to the three-transaction store, an
intruding owner "b@c.com" and the transaction with id 1 owned by
"a@b.com". -/
theorem C5_witness :
    ("b@c.com" : String) ≠ "" ∧
    (⟨1, "a@b.com", .str "income", .str "2024-01-01", 5, .str "salary",
      none⟩ : Txn) ∈ stThreeDates.txns ∧
    (∀ t' ∈ stThreeDates.txns, t'.id = 1 → t'.user_email = "a@b.com") ∧
    (delete_transaction stThreeDates (some "b@c.com") 1 =
      (.notFound, stThreeDates) ∧
     DeleteResp.notFound.status = 404 ∧
     (⟨1, "a@b.com", .str "income", .str "2024-01-01", 5, .str "salary",
       none⟩ : Txn) ∈ listByOwner stThreeDates "a@b.com") :=
  ⟨by decide, by decide, by decide,
   C5_theorem stThreeDates 1 "a@b.com" "b@c.com"
     ⟨1, "a@b.com", .str "income", .str "2024-01-01", 5, .str "salary", none⟩
     (by decide) (by decide) (by decide) (by decide) (by decide) (by decide)⟩

/-- C6: for every owner the GET listing is exactly that owner's
transactions (a permutation of the owner-filtered table) ordered by date
descending; on the three-date example store it comes back in the order
2025-06-01, 2024-01-01, 2023-03-03, and an owner with no transactions
gets an empty list through the route, not an error. -/
theorem C6_theorem :
    (∀ (st : Store) (owner : String),
      (listByOwner st owner).Sorted dateDescRel ∧
      List.Perm (listByOwner st owner)
        (st.txns.filter (fun t => t.user_email = owner))) ∧
    (listByOwner stThreeDates "a@b.com").map Txn.date =
      [.str "2025-06-01", .str "2024-01-01", .str "2023-03-03"] ∧
    (listByOwner stThreeDates "a@b.com").map Txn.id = [2, 1, 3] ∧
    listByOwner stThreeDates "nobody" = [] ∧
    transactions_get stThreeDates (some "nobody") = .ok [] := by
  refine ⟨fun st owner => ⟨List.sorted_insertionSort dateDescRel _,
    List.perm_insertionSort dateDescRel _⟩, ?_, ?_, ?_, ?_⟩ <;> decide

/-- C7 (counterexample): the round-trip fails on a spec-valid input.  For
amount = 0 — valid per the spec, which requires amount ≥ 0 and states that
amount = 0 succeeds — the create is rejected with the 400 missing-fields
error (0 is falsy in the handler's truthiness check), nothing is inserted,
and the owner's subsequent list does not contain the record. -/
theorem C7_counterexample :
    transactions_post stOneUser (some "a@b.com")
        (some (mkTxBodyCN (.str "income") (.str "2024-01-01") (.num 0)
          (.str "salary") (.str "Salary"))) = (.missingFields, stOneUser) ∧
    CreateResp.status .missingFields = 400 ∧
    listByOwner stOneUser "a@b.com" = [] := by
  decide

/-- C7 (amended): for every input the code actually accepts — truthy
type, date and category, a nonzero numeric amount, a categoryName
string — by an authenticated owner, create inserts a record whose type,
date, amount, category and categoryName equal the input, the assigned id
is fresh (no existing transaction has it, given the AUTOINCREMENT
invariant), and a subsequent list by the owner contains the created
record.  The spec-valid input amount = 0 is excluded because the code
rejects it with 400 (see the counterexample). -/
theorem C7_theorem (st : Store) (u : String) (t d c : JVal) (n : String)
    (q : Rat) (hu : u ≠ "") (ht : t.truthy = true) (hd : d.truthy = true)
    (hc : c.truthy = true) (hq : q ≠ 0)
    (hfresh : ∀ t' ∈ st.txns, t'.id < st.nextTxnId) :
    transactions_post st (some u)
        (some (mkTxBodyCN t d (.num q) c (.str n))) =
      (.created st.nextTxnId,
       { st with
           txns := st.txns ++ [⟨st.nextTxnId, u, t, d, q, c, some (.str n)⟩],
           nextTxnId := st.nextTxnId + 1 }) ∧
    (⟨st.nextTxnId, u, t, d, q, c, some (.str n)⟩ : Txn) ∈
      listByOwner (transactions_post st (some u)
        (some (mkTxBodyCN t d (.num q) c (.str n)))).2 u ∧
    st.nextTxnId ∉ st.txns.map Txn.id := by
  have he := transactions_post_evalCN st u t d c (.str n) q hu ht hd hc hq
  have hs : storedOpt (some (JVal.str n)) = some (JVal.str n) := rfl
  rw [hs] at he
  refine ⟨he, ?_, ?_⟩
  · rw [he]
    exact mem_listByOwner.mpr ⟨by simp, rfl⟩
  · intro hmem
    rcases List.mem_map.mp hmem with ⟨t', ht', hid⟩
    exact absurd (hfresh t' ht') (by omega)

/-- C7 (witness): the theorem applied to the three-transaction store and
a concrete valid input; the fresh id is 4. -/
theorem C7_witness :
    ("a@b.com" : String) ≠ "" ∧ (JVal.str "income").truthy = true ∧
    (JVal.str "2025-09-01").truthy = true ∧ (JVal.str "gifts").truthy = true ∧
    (7 : Rat) ≠ 0 ∧ (∀ t' ∈ stThreeDates.txns, t'.id < stThreeDates.nextTxnId) ∧
    (transactions_post stThreeDates (some "a@b.com")
        (some (mkTxBodyCN (.str "income") (.str "2025-09-01") (.num 7)
          (.str "gifts") (.str "Gifts"))) =
      (.created 4,
       { stThreeDates with
           txns := stThreeDates.txns ++
             [⟨4, "a@b.com", .str "income", .str "2025-09-01", 7,
               .str "gifts", some (.str "Gifts")⟩],
           nextTxnId := 5 }) ∧
     (⟨4, "a@b.com", .str "income", .str "2025-09-01", 7, .str "gifts",
       some (.str "Gifts")⟩ : Txn) ∈
      listByOwner (transactions_post stThreeDates (some "a@b.com")
        (some (mkTxBodyCN (.str "income") (.str "2025-09-01") (.num 7)
          (.str "gifts") (.str "Gifts")))).2 "a@b.com" ∧
     (4 : Nat) ∉ stThreeDates.txns.map Txn.id) :=
  ⟨by decide, by decide, by decide, by decide, by decide, by decide,
   C7_theorem stThreeDates "a@b.com" (.str "income") (.str "2025-09-01")
     (.str "gifts") "Gifts" 7 (by decide) (by decide) (by decide) (by decide)
     (by decide) (by decide)⟩

/-- C8 (counterexample): a register request whose password is a single
space — blank but non-empty — SUCCEEDS with 201: the user is created
with that password and a session is started, because the handler strips
the email but never strips the password. -/
theorem C8_counterexample :
    register ⟨[], [], 1⟩ none (some (mkAuthBody (.str "a@b.com") (.str " "))) =
      (.created "a@b.com", ⟨[⟨"a@b.com", " "⟩], [], 1⟩, some "a@b.com") ∧
    RegisterResp.status (.created "a@b.com") = 201 ∧
    pyStripStr " " = "" := by
  decide

/-- C8 (amended): register fails with the 400 missing-fields error — and
creates no user and starts no session — when the email is empty or
whitespace-only (it is stripped first) or when the password is the empty
string; a whitespace-only password, however, passes the check. -/
theorem C8_amended_theorem (st : Store) (sess : Option String) (e p : String)
    (h : pyStripStr e = "" ∨ p = "") :
    register st sess (some (mkAuthBody (.str e) (.str p))) =
      (.missingFields, st, sess) ∧
    RegisterResp.status .missingFields = 400 := by
  refine ⟨?_, rfl⟩
  have hemail : pyStrip (pyOr (getField (mkAuthBody (.str e) (.str p))
      "email") (.str "")) = .ok (pyStripStr e) := by
    by_cases he : e = "" <;>
      simp [mkAuthBody, getField, pyOr, pyStrip, JVal.truthy_str, he]
  simp only [mkAuthBody] at hemail
  rcases h with h | h
  · simp [register, mkAuthBody, hemail, h]
  · subst h
    by_cases he : e = "" <;>
      simp [register, mkAuthBody, getField, pyOr, pyStrip, JVal.truthy_str,
        JVal.truthy, he]

/-- C8 (witness): the amended theorem applied to a whitespace-only email
and a non-empty password. -/
theorem C8_witness :
    (pyStripStr "  " = "" ∨ ("x" : String) = "") ∧
    (register stOneUser none (some (mkAuthBody (.str "  ") (.str "x"))) =
      (.missingFields, stOneUser, none) ∧
     RegisterResp.status .missingFields = 400) :=
  ⟨by decide, C8_amended_theorem stOneUser none "  " "x" (by decide)⟩

/-- C9: both register and login strip surrounding whitespace from the
submitted email before any lookup or insert: registering with email `e`
stores the stripped email, and a later login whose email strips to the
same string (with the same password) succeeds against that account. -/
theorem C9_theorem (st : Store) (e p e2 : String)
    (he : pyStripStr e ≠ "") (hp : p ≠ "")
    (h2 : pyStripStr e2 = pyStripStr e)
    (hnew : ∀ v ∈ st.users, ¬ (v.email = pyStripStr e)) :
    register st none (some (mkAuthBody (.str e) (.str p))) =
      (.created (pyStripStr e),
       { st with users :=
           st.users ++ [⟨pyStripStr e, generate_password_hash p⟩] },
       some (pyStripStr e)) ∧
    login { st with users :=
        st.users ++ [⟨pyStripStr e, generate_password_hash p⟩] }
      none (some (mkAuthBody (.str e2) (.str p))) =
      (.ok (pyStripStr e),
       { st with users :=
           st.users ++ [⟨pyStripStr e, generate_password_hash p⟩] },
       some (pyStripStr e)) := by
  have hemail : pyStrip (if e = "" then JVal.str "" else JVal.str e) =
      .ok (pyStripStr e) := by
    by_cases hee : e = "" <;> simp [pyStrip, hee]
  have hemail2 : pyStrip (if e2 = "" then JVal.str "" else JVal.str e2) =
      .ok (pyStripStr e) := by
    by_cases hee : e2 = ""
    · rw [hee] at h2
      simp [pyStrip, hee, h2]
    · simp [pyStrip, hee, h2]
  have hnone : st.users.find? (fun v => v.email = pyStripStr e) = none :=
    List.find?_eq_none.mpr (fun x hx => by simpa using hnew x hx)
  constructor
  · simp [register, mkAuthBody, getField, pyOr, JVal.truthy_str, hemail, he,
      hp, generate_password_hash]
    exact hnew
  · simp [login, mkAuthBody, getField, pyOr, JVal.truthy_str, hemail2, he,
      hp, hnone, generate_password_hash, check_password_hash]

/-- C9 (witness): registering with email " a@b.com " (surrounding
whitespace) stores the stripped email, and logging in with "a@b.com" and
the same password then succeeds. -/
theorem C9_witness :
    pyStripStr " a@b.com " ≠ "" ∧ ("pw" : String) ≠ "" ∧
    pyStripStr "a@b.com" = pyStripStr " a@b.com " ∧
    (∀ v ∈ ([] : List User), ¬ (v.email = pyStripStr " a@b.com ")) ∧
    (register ⟨[], [], 1⟩ none
        (some (mkAuthBody (.str " a@b.com ") (.str "pw"))) =
      (.created (pyStripStr " a@b.com "),
       ⟨[⟨pyStripStr " a@b.com ", generate_password_hash "pw"⟩], [], 1⟩,
       some (pyStripStr " a@b.com ")) ∧
     login ⟨[⟨pyStripStr " a@b.com ", generate_password_hash "pw"⟩], [], 1⟩
        none (some (mkAuthBody (.str "a@b.com") (.str "pw"))) =
      (.ok (pyStripStr " a@b.com "),
       ⟨[⟨pyStripStr " a@b.com ", generate_password_hash "pw"⟩], [], 1⟩,
       some (pyStripStr " a@b.com "))) :=
  ⟨by decide, by decide, by decide, by simp,
   C9_theorem ⟨[], [], 1⟩ " a@b.com " "pw" "a@b.com"
     (by decide) (by decide) (by decide) (by simp)⟩

/-- C10 (counterexample): an unauthenticated create-transaction request
with an absent body is rejected by the auth gate with 401, not with the
400 JSON error the claim promises for every such request. -/
theorem C10_counterexample :
    transactions_post stOneUser none none = (.notAuth, stOneUser) ∧
    CreateResp.status .notAuth = 401 ∧
    CreateResp.status .notAuth ≠ 400 := by
  decide

/-- C10 (amended): an absent or unparseable body yields the 400
"Request must be JSON" error with store and session unchanged for
register and login always, and for create-transaction once a session is
authenticated; an unauthenticated create-transaction request is rejected
with 401 before the body is inspected. -/
theorem C10_amended_theorem (st : Store) (sess : Option String) (u : String)
    (hu : u ≠ "") :
    register st sess none = (.notJson, st, sess) ∧
    RegisterResp.status .notJson = 400 ∧
    login st sess none = (.notJson, st, sess) ∧
    LoginResp.status .notJson = 400 ∧
    transactions_post st (some u) none = (.notJson, st) ∧
    CreateResp.status .notJson = 400 ∧
    transactions_post st none none = (.notAuth, st) ∧
    CreateResp.status .notAuth = 401 := by
  refine ⟨rfl, rfl, rfl, rfl, ?_, rfl, rfl, rfl⟩
  simp [transactions_post, require_user, hu]

/-- C10 (witness): the amended theorem applied at a concrete store with
an authenticated session "a@b.com". -/
theorem C10_witness :
    ("a@b.com" : String) ≠ "" ∧
    (register stOneUser none none = (.notJson, stOneUser, none) ∧
     RegisterResp.status .notJson = 400 ∧
     login stOneUser none none = (.notJson, stOneUser, none) ∧
     LoginResp.status .notJson = 400 ∧
     transactions_post stOneUser (some "a@b.com") none =
       (.notJson, stOneUser) ∧
     CreateResp.status .notJson = 400 ∧
     transactions_post stOneUser none none = (.notAuth, stOneUser) ∧
     CreateResp.status .notAuth = 401) :=
  ⟨by decide, C10_amended_theorem stOneUser none "a@b.com" (by decide)⟩
